import Mathlib

/-!
A shallow embedding of the rack-space allocation, elevation rendering,
placement validation and interface-name ordering core of
`netbox/dcim/models.py`, together with theorems settling the
specification's claims about it.

Modelling conventions:
* Database rows become Lean structures; foreign keys are denormalised
  (a `Device` row carries its `DeviceType`, a `Rack` carries its list of
  `Device` rows).
* Python `None` becomes `Option.none`; Python truthiness of the
  `position` field (`None` and `0` are falsy) is `positionTruthy`.
* Python's `list.remove` wrapped in `try/except ValueError: pass` is
  `List.erase` (remove the first occurrence, no-op when absent).
* A computation that can raise `KeyError` is embedded in `Option`
  (`none` models the raise); validation methods that can raise
  `ValidationError` return `Except (String × String) Unit`, the error
  carrying the field name and message.
* Python 2 `float` arithmetic in `Rack.get_utilization` is modelled
  exactly by correctly-rounded binary64 arithmetic over exact fractions
  (`fl53F`, validated exhaustively against CPython on the whole validated
  rack-height domain); error-message text is abbreviated (interpolated
  values dropped), which no claim depends on.
-/

namespace NetBox

/-- Rack faces: `RACK_FACE_FRONT = 0`, `RACK_FACE_REAR = 1`. -/
inductive RackFace where
  | front
  | rear
deriving DecidableEq

/-- The fields of a `DeviceType` row consulted by rack-space computations.
`subdevice_role` is the tri-state `NullBooleanField`:
`some true` = parent, `some false` = child, `none` = neither. -/
structure DeviceType where
  u_height : Nat
  is_full_depth : Bool
  subdevice_role : Option Bool
deriving DecidableEq

/-- `DeviceType.is_child_device`: `bool(self.subdevice_role is False)`. -/
def DeviceType.is_child_device (t : DeviceType) : Bool :=
  t.subdevice_role == some false

/-- A persisted `Device` row as seen by rack occupancy queries:
primary key, device type, optional position (lowest occupied unit)
and optional face. -/
structure Device where
  pk : Nat
  device_type : DeviceType
  position : Option Nat
  face : Option RackFace
deriving DecidableEq

/-- A `Rack` row together with its installed `Device` rows
(the reverse foreign key `rack.devices`). -/
structure Rack where
  u_height : Nat
  desc_units : Bool
  devices : List Device
deriving DecidableEq

/-- The units a device occupies: `range(position, position + u_height)`.
Empty for an unplaced device (the callers below filter on position first,
mirroring the querysets). -/
def deviceSpan (d : Device) : List Nat :=
  match d.position with
  | some p => List.range' p d.device_type.u_height
  | none => []

/-- Queryset filter `position__gte=1`. -/
def positionGE1 (d : Device) : Bool :=
  match d.position with
  | some p => decide (1 ≤ p)
  | none => false

/-- Queryset filter `position__gt=0`. -/
def positionGT0 (d : Device) : Bool :=
  match d.position with
  | some p => decide (0 < p)
  | none => false

/-- Python truthiness of the `position` field: `None` and `0` are falsy. -/
def positionTruthy (p : Option Nat) : Bool :=
  match p with
  | some n => n != 0
  | none => false

/-- The face test inside `Rack.get_available_units`:
`rack_face is None or d.face == rack_face or d.device_type.is_full_depth`. -/
def facesMatch (rack_face : Option RackFace) (d : Device) : Bool :=
  rack_face.isNone || d.face == rack_face || d.device_type.is_full_depth

/-- Whether a device row is taken into account by
`Rack.get_available_units` for a query: it passed the queryset filter
(`position__gte=1`, pk not excluded) and the in-loop face test. -/
def considered (rack_face : Option RackFace) (exclude : List Nat)
    (d : Device) : Bool :=
  positionGE1 d && !(exclude.contains d.pk) && facesMatch rack_face d

/-- The unit-removal loop of `Rack.get_available_units`: for every
(filtered) device whose face matches, erase each unit of its span from
the free list; `List.erase` is Python `units.remove(u)` with the
`ValueError` from an absent unit swallowed. -/
def removeOccupied (rack_face : Option RackFace) (devices : List Device)
    (units : List Nat) : List Nat :=
  devices.foldl
    (fun us d =>
      if facesMatch rack_face d then (deviceSpan d).foldl List.erase us
      else us)
    units

/-- `Rack.get_available_units(u_height, rack_face, exclude)`:
free units are `range(1, u_height+1)` minus the spans of the considered
devices; a unit is available when the whole window
`range(u, u + u_height)` is contained in the free units; the available
units are returned reversed (descending). -/
def Rack.get_available_units (r : Rack) (u_height : Nat)
    (rack_face : Option RackFace) (exclude : List Nat) : List Nat :=
  let devices := r.devices.filter
    (fun d => positionGE1 d && !(exclude.contains d.pk))
  let units := removeOccupied rack_face devices (List.range' 1 r.u_height)
  let available := units.filter
    (fun u => (List.range' u u_height).all (fun v => units.contains v))
  available.reverse

/-- Specification-side reading of the free set: the initial range with
every unit covered by the span of some considered device removed
(membership in the union of the occupied spans). -/
def specFreeUnits (r : Rack) (rack_face : Option RackFace)
    (exclude : List Nat) : List Nat :=
  (List.range' 1 r.u_height).filter
    (fun u => !(r.devices.any
      (fun d => considered rack_face exclude d && (deviceSpan d).contains u)))

/-- Specification-side reading of `get_available_units`, computed from
the union of all occupied spans (`specFreeUnits`) instead of by repeated
single-occurrence removal. -/
def specAvailableUnits (r : Rack) (u_height : Nat)
    (rack_face : Option RackFace) (exclude : List Nat) : List Nat :=
  let units := specFreeUnits r rack_face exclude
  (units.filter
    (fun u => (List.range' u u_height).all (fun v => units.contains v))).reverse

/-- A unit is occupied (for a given face query, after exclusions) when
some considered device's span contains it. -/
def occupiedUnit (r : Rack) (rack_face : Option RackFace)
    (exclude : List Nat) (u : Nat) : Prop :=
  ∃ d ∈ r.devices, considered rack_face exclude d = true ∧ u ∈ deviceSpan d

instance (r : Rack) (rack_face : Option RackFace) (exclude : List Nat)
    (u : Nat) : Decidable (occupiedUnit r rack_face exclude u) := by
  unfold occupiedUnit
  infer_instance

/-- Fuelled floor of the base-2 logarithm of the positive fraction
`num / den` (fuel 300 covers every magnitude arising here). -/
def ilog2F (fuel num den : Nat) : ℤ :=
  match fuel with
  | 0 => 0
  | fuel + 1 =>
    if num < den then ilog2F fuel (2 * num) den - 1
    else if 2 * den ≤ num then ilog2F fuel num (2 * den) + 1
    else 0

/-- Round the nonnegative fraction `num / den` (with `den > 0`) to the
nearest integer, ties to even (IEEE 754 default rounding). -/
def rheDiv (num den : Nat) : Nat :=
  let q := num / den
  let r := num % den
  if 2 * r < den then q
  else if den < 2 * r then q + 1
  else if q % 2 = 0 then q else q + 1

/-- Correct rounding of the nonnegative fraction `num / den` to IEEE 754
binary64, returned as a dyadic pair `(m, k)` of value `m / 2 ^ k`:
scale into `[2^52, 2^53)` and round the significand to nearest-even.
Only fractions below the binary64 integer range occur here, so no
overflow, subnormal or clamping cases arise. -/
def fl53F (num den : Nat) : Nat × Nat :=
  if num = 0 || den = 0 then (0, 0)
  else
    let e : ℤ := ilog2F 300 num den
    let k : Nat := ((52 : ℤ) - e).toNat
    (rheDiv (num * 2 ^ k) den, k)

/-- `int(float(u_height - u_available) / u_height * 100)` with binary64
semantics: one correctly-rounded division, one correctly-rounded
multiplication by the exact constant `100`, then truncation toward zero
(which on these nonnegative values is the floor, i.e. `Nat` division).
In every reachable state `u_available ≤ u_height` (the available units
are distinct members of `range(1, u_height + 1)`), so the truncated
`Nat` subtraction is exact; `u_height = 0` would raise
`ZeroDivisionError` in Python and is excluded by the rack height
validators (`1 ≤ u_height ≤ 100`). -/
def pyUtilization (u_height u_available : Nat) : ℤ :=
  let p1 := fl53F (u_height - u_available) u_height
  let p2 := fl53F (100 * p1.1) (2 ^ p1.2)
  ((p2.1 / 2 ^ p2.2 : Nat) : ℤ)

/-- `Rack.get_utilization`: percentage computed from the number of
available units of the default query
`get_available_units(u_height=1, rack_face=None, exclude=[])`. -/
def Rack.get_utilization (r : Rack) : ℤ :=
  pyUtilization r.u_height (r.get_available_units 1 none []).length

/-- `Rack.units`: the iteration order of unit numbers,
`range(1, u_height+1)` when `desc_units` else its reverse
(top of the rack first). -/
def Rack.units (r : Rack) : List Nat :=
  if r.desc_units then List.range' 1 r.u_height
  else (List.range' 1 r.u_height).reverse

/-- One record of the elevation `OrderedDict`:
`{'id': u, 'name': 'U<u>', 'face': face, 'device': ...}`. -/
structure RackUnit where
  id : Nat
  name : String
  face : RackFace
  device : Option Device
deriving DecidableEq

/-- The insertion-ordered elevation dictionary is a list of records with
pairwise-distinct `id` keys (dictionary keys are unique; the list keeps
the `OrderedDict` insertion order). `elevation[u]['device'] = device`:
assign through an existing key, `none` models the `KeyError` raised when
the key is absent. -/
def elevSet (elev : List RackUnit) (u : Nat) (d : Device) :
    Option (List RackUnit) :=
  if elev.any (fun rec => rec.id == u) then
    some (elev.map
      (fun rec => if rec.id == u then { rec with device := some d } else rec))
  else none

/-- `elevation.pop(u, None)`: drop the record with key `u`, a no-op when
the key is absent (keys are pairwise distinct). -/
def elevPop (elev : List RackUnit) (u : Nat) : List RackUnit :=
  elev.filter (fun rec => rec.id != u)

/-- The body of the device loop of `Rack.get_rack_units` for one device.
The queryset filters `position__gt=0`, so `position` is always set here;
a `none` position leaves the dictionary unchanged (unreachable branch).
When `remove_redundant` is set the device is written at its lowest unit
and the remaining units of its span are popped; otherwise the device is
written at every unit of its span. -/
def placeDevice (remove_redundant : Bool) (elev : List RackUnit)
    (d : Device) : Option (List RackUnit) :=
  match d.position with
  | none => some elev
  | some p =>
    if remove_redundant then
      (elevSet elev p d).map
        (fun e => (List.range' (p + 1) (d.device_type.u_height - 1)).foldl
          elevPop e)
    else
      (List.range' p d.device_type.u_height).foldlM
        (fun e u => elevSet e u d) elev

/-- The queryset of `Rack.get_rack_units`:
`exclude(pk=exclude).filter(rack=self, position__gt=0)
.filter(Q(face=face) | Q(device_type__is_full_depth=True))`. -/
def rackUnitDevices (r : Rack) (face : RackFace) (exclude : Option Nat) :
    List Device :=
  r.devices.filter
    (fun d => some d.pk != exclude && positionGT0 d &&
      (d.face == some face || d.device_type.is_full_depth))

/-- `Rack.get_rack_units(face, exclude, remove_redundant)`: build one
record per unit in `Rack.units` order, then write every matching device
into the dictionary; `none` models a `KeyError` escaping the method.
The rack is taken as persisted (`if self.pk` holds, so the device loop
runs). -/
def Rack.get_rack_units (r : Rack) (face : RackFace) (exclude : Option Nat)
    (remove_redundant : Bool) : Option (List RackUnit) :=
  let init : List RackUnit := r.units.map
    (fun u => { id := u, name := "U" ++ toString u, face := face, device := none })
  (rackUnitDevices r face exclude).foldlM (placeDevice remove_redundant) init

/-- `Rack.get_front_elevation`. -/
def Rack.get_front_elevation (r : Rack) : Option (List RackUnit) :=
  r.get_rack_units RackFace.front none true

/-- `Rack.get_rear_elevation`. -/
def Rack.get_rear_elevation (r : Rack) : Option (List RackUnit) :=
  r.get_rack_units RackFace.rear none true

/-- `order_by('-position').first()` over the installed devices
(`exclude(position__isnull=True)`): a device whose position is maximal;
ties (same position on both faces) are resolved by row order here, as
the SQL leaves them unspecified. -/
def topDevice (devices : List Device) : Option Device :=
  (devices.filter (fun d => d.position.isSome)).foldl
    (fun acc d =>
      match acc with
      | none => some d
      | some t =>
        if t.position.getD 0 < d.position.getD 0 then some d else acc)
    none

/-- `Rack.clean`: validate a rack (with its new `u_height`) against the
currently installed devices. Only the single device returned by
`order_by('-position').first()` is examined: `min_height` is that
device's position plus its type height minus one. The rack is assumed
persisted (`self.pk` set); `min_height` is computed in `ℤ` exactly as
Python's unbounded integers do. -/
def Rack.clean (r : Rack) : Except (String × String) Unit :=
  match topDevice r.devices with
  | none => Except.ok ()
  | some t =>
    let min_height : ℤ :=
      (t.position.getD 0 : ℤ) + (t.device_type.u_height : ℤ) - 1
    if (r.u_height : ℤ) < min_height then
      Except.error ("u_height",
        "Rack must be at least min_height U tall to house currently installed devices.")
    else Except.ok ()

/-- The device instance being validated by `Device.clean`: its primary
key when persisted (`none` for a new device), its type, its target rack
(with the rack's current occupants) and the proposed placement. The
rack and device type are taken to exist (`Rack.DoesNotExist` /
`DeviceType.DoesNotExist` silently skip the checks otherwise). -/
structure PendingDevice where
  pk : Option Nat
  device_type : DeviceType
  rack : Rack
  position : Option Nat
  face : Option RackFace
deriving DecidableEq

/-- `Device.clean`: position/face combination check, child-device
checks, then rack-space check via `get_available_units`. Python
truthiness of `self.position` (`None` and `0` falsy) is preserved. -/
def Device.clean (d : PendingDevice) : Except (String × String) Unit :=
  if positionTruthy d.position && d.face == none then
    Except.error ("face", "Must specify rack face when defining rack position.")
  else if d.device_type.is_child_device && d.face != none then
    Except.error ("face", "Child device types cannot be assigned to a rack face.")
  else if d.device_type.is_child_device && positionTruthy d.position then
    Except.error ("position", "Child device types cannot be assigned to a rack position.")
  else
    let rack_face := if d.device_type.is_full_depth then none else d.face
    let exclude_list := match d.pk with
      | some k => [k]
      | none => []
    let available_units := d.rack.get_available_units
      d.device_type.u_height rack_face exclude_list
    if positionTruthy d.position &&
        !(available_units.contains (d.position.getD 0)) then
      Except.error ("position", "Position is already occupied or does not have sufficient space.")
    else Except.ok ()

/-- One existing device of a device type being resized, as consulted by
`DeviceType.clean`: its primary key, placement, and its own rack with
that rack's current occupants. -/
structure PlacedDevice where
  pk : Nat
  position : Option Nat
  face : Option RackFace
  rack : Rack
deriving DecidableEq

/-- The `DeviceType` state seen by `DeviceType.clean`: the edited fields
plus the saved copy `_original_u_height`, whether the row is persisted,
and the counts of associated templates consulted by the declassification
checks. -/
structure DeviceTypeRec where
  pk_is_set : Bool
  u_height : Nat
  original_u_height : Nat
  is_full_depth : Bool
  subdevice_role : Option Bool
  is_console_server : Bool
  is_pdu : Bool
  is_network_device : Bool
  cs_port_template_count : Nat
  power_outlet_template_count : Nat
  nonmgmt_interface_template_count : Nat
  device_bay_template_count : Nat
deriving DecidableEq

/-- The per-instance loop of the height-growth validation in
`DeviceType.clean`: raise on the first instance whose position is no
longer among the available units of its own rack for the new height. -/
def checkInstances (new_height : Nat) (is_full_depth : Bool) :
    List PlacedDevice → Except (String × String) Unit
  | [] => Except.ok ()
  | d :: rest =>
    let face_required := if is_full_depth then none else d.face
    let u_available := d.rack.get_available_units new_height face_required [d.pk]
    if u_available.contains (d.position.getD 0) then
      checkInstances new_height is_full_depth rest
    else
      Except.error ("u_height",
        "Device does not have sufficient space to accommodate the new height.")

/-- The template/flag checks of `DeviceType.clean` that follow the
height-growth validation, in source order. -/
def DeviceType.clean_rest (t : DeviceTypeRec) : Except (String × String) Unit :=
  if !t.is_console_server && t.cs_port_template_count != 0 then
    Except.error ("is_console_server", "Must delete all console server port templates first.")
  else if !t.is_pdu && t.power_outlet_template_count != 0 then
    Except.error ("is_pdu", "Must delete all power outlet templates first.")
  else if !t.is_network_device && t.nonmgmt_interface_template_count != 0 then
    Except.error ("is_network_device", "Must delete all non-management-only interface templates first.")
  else if t.subdevice_role != some true && t.device_bay_template_count != 0 then
    Except.error ("subdevice_role", "Must delete all device bay templates first.")
  else if t.u_height != 0 && t.subdevice_role == some false then
    Except.error ("u_height", "Child device types must be 0U.")
  else Except.ok ()

/-- `DeviceType.clean`: when an existing device type grows
(`pk is not None and u_height > _original_u_height`), every instance
with a non-null position (`position__isnull=False`) must keep its
position among the available units of its own rack computed for the new
height, excluding that instance itself; then the remaining checks run. -/
def DeviceType.clean (t : DeviceTypeRec) (instances : List PlacedDevice) :
    Except (String × String) Unit :=
  match
    (if t.pk_is_set && t.original_u_height < t.u_height then
      checkInstances t.u_height t.is_full_depth
        (instances.filter (fun d => d.position.isSome))
    else Except.ok ()) with
  | Except.error e => Except.error e
  | Except.ok () => DeviceType.clean_rest t

/-- A `Device` table row as touched by `Device.save`: the fields other
than `rack` stand for everything the child-rack update must leave
alone. -/
structure DeviceRow where
  pk : Nat
  rack : Nat
  position : Option Nat
  face : Option RackFace
  name : Option String
deriving DecidableEq

/-- A `DeviceBay` table row: owning device, bay name, and the optional
installed child device (`OneToOneField` with reverse name
`parent_bay`). -/
structure DeviceBayRow where
  pk : Nat
  device : Nat
  name : String
  installed_device : Option Nat
deriving DecidableEq

/-- `Device.objects.filter(parent_bay__device=parent_pk)` membership:
the row is installed in some device bay owned by the parent. -/
def isChildOf (bays : List DeviceBayRow) (parent_pk child_pk : Nat) : Bool :=
  bays.any (fun b => b.device == parent_pk && b.installed_device == some child_pk)

/-- `Device.save` restricted to the `Device` table: `super().save()`
inserts or updates the row itself, the component `bulk_create` calls
touch only the component tables, and finally
`Device.objects.filter(parent_bay__device=self).update(rack=self.rack)`
rewrites exactly the `rack` column of every child installed in one of
this device's bays. -/
def Device.save (self : DeviceRow) (devices : List DeviceRow)
    (bays : List DeviceBayRow) : List DeviceRow :=
  let upserted :=
    if devices.any (fun d => d.pk == self.pk) then
      devices.map (fun d => if d.pk == self.pk then self else d)
    else devices ++ [self]
  upserted.map
    (fun d => if isChildOf bays self.pk d.pk then { d with rack := self.rack } else d)

/-- Numeric value of a digit run (most significant digit first). -/
def digitsVal (l : List Char) : Nat :=
  l.foldl (fun n c => 10 * n + (c.toNat - '0'.toNat)) 0

/-- Parse the regular expression `([0-9]+)(:[0-9]+)?$` against the end
of a name, the name given as its reversed character list. Returns the
value captured by the first group and the reversed remainder to the
left of the match. The digit runs are maximal and the optional
`:[0-9]+` group is taken whenever it can be (the POSIX match is the one
starting leftmost, and every match here must end at the end of the
string). -/
def parseTrailNum (rev : List Char) : Option (Nat × List Char) :=
  let s1 := rev.span Char.isDigit
  if s1.1.isEmpty then none
  else
    match s1.2 with
    | ':' :: r2 =>
      let s2 := r2.span Char.isDigit
      if s2.1.isEmpty then some (digitsVal s1.1.reverse, s1.2)
      else some (digitsVal s2.1.reverse, s2.2)
    | _ => some (digitsVal s1.1.reverse, s1.2)

/-- Parse one further `([0-9]+)\/` level to the left of an already
matched tail: expects a `/` and then a maximal digit run. Returns the
run's value and the reversed remainder. -/
def parseSlashNum (rev : List Char) : Option (Nat × List Char) :=
  match rev with
  | '/' :: r =>
    let s := r.span Char.isDigit
    if s.1.isEmpty then none else some (digitsVal s.1.reverse, s.2)
  | _ => none

/-- `_id3 = CAST(SUBSTRING(name FROM '([0-9]+)(:[0-9]+)?$') AS integer)`:
the trailing integer of the name, skipping one optional `:subchannel`
suffix; `NULL` when the name has no such match. -/
def nameId3 (s : String) : Option Nat :=
  (parseTrailNum s.data.reverse).map Prod.fst

/-- `_id2 = CAST(SUBSTRING(name FROM '([0-9]+)\/[0-9]+(:[0-9]+)?$') AS integer)`. -/
def nameId2 (s : String) : Option Nat := do
  let t ← parseTrailNum s.data.reverse
  let b ← parseSlashNum t.2
  pure b.1

/-- `_id1 = CAST(SUBSTRING(name FROM '([0-9]+)\/[0-9]+\/[0-9]+(:[0-9]+)?$') AS integer)`. -/
def nameId1 (s : String) : Option Nat := do
  let t ← parseTrailNum s.data.reverse
  let b ← parseSlashNum t.2
  let a ← parseSlashNum b.2
  pure a.1

/-- `_id4 = CAST(SUBSTRING(name FROM ':([0-9]+)$') AS integer)`: the
trailing integer when it is preceded by a colon. -/
def nameId4 (s : String) : Option Nat :=
  let s1 := s.data.reverse.span Char.isDigit
  if s1.1.isEmpty then none
  else
    match s1.2 with
    | ':' :: _ => some (digitsVal s1.1.reverse)
    | _ => none

/-- Encode one sort column for `ORDER BY ... ASC`: PostgreSQL orders
`NULL` after every integer in ascending order, so `NULL` maps to a
strictly larger first component. -/
def nullsLast (a : Option Nat) : Nat × Nat :=
  match a with
  | some n => (0, n)
  | none => (1, 0)

/-- The four-column sort key `(_id1, _id2, _id3, _id4)` of
`order_interfaces`. -/
def interfaceKey (s : String) : List (Nat × Nat) :=
  [nullsLast (nameId1 s), nullsLast (nameId2 s), nullsLast (nameId3 s),
    nullsLast (nameId4 s)]

/-- Lexicographic comparison of equal-length column lists, each column
compared first on the null flag, then on the integer. -/
def columnsLE : List (Nat × Nat) → List (Nat × Nat) → Bool
  | [], _ => true
  | _ :: _, [] => false
  | a :: as, b :: bs =>
    if a.1 < b.1 then true
    else if b.1 < a.1 then false
    else if a.2 < b.2 then true
    else if b.2 < a.2 then false
    else columnsLE as bs

/-- Stable insertion of a name into a list sorted by `interfaceKey`:
the new name goes after every earlier name whose key is not greater. -/
def insertByKey (x : String) : List String → List String
  | [] => [x]
  | y :: ys =>
    if columnsLE (interfaceKey y) (interfaceKey x) then y :: insertByKey x ys
    else x :: y :: ys

/-- `order_interfaces` as a pure function on the list of names: sort by
the four-column key `(_id1, _id2, _id3, _id4)` ascending with nulls
last (stable, so rows with identical keys keep their relative order,
which SQL leaves unspecified; the claims below only evaluate it on
inputs whose keys are pairwise distinct). -/
def order_interfaces (names : List String) : List String :=
  names.foldl (fun acc x => insertByKey x acc) []

/-- The occupant that iteration order leaves at a unit: the last device
in the list whose span covers the unit (last write wins), or the
starting value when none does. -/
def occupantAfter (ds : List Device) (u : Nat) (init : Option Device) :
    Option Device :=
  ds.foldl (fun cur d => if (deviceSpan d).contains u then some d else cur) init

/-!
Helper lemmas.
-/

theorem foldl_erase_eq_filter :
    ∀ (rem l : List Nat), l.Nodup →
      rem.foldl List.erase l = l.filter (fun u => !(rem.contains u))
  | [], l, _ => by simp
  | a :: rem, l, h => by
    have h1 : (l.erase a).Nodup := h.erase a
    have ih := foldl_erase_eq_filter rem (l.erase a) h1
    simp only [List.foldl_cons] at *
    rw [ih, h.erase_eq_filter, List.filter_filter]
    apply List.filter_congr
    intro u _
    by_cases hq : u = a <;> by_cases hr : u ∈ rem <;> simp [hq, hr]

theorem removeOccupied_eq_filter (rack_face : Option RackFace) :
    ∀ (devices : List Device) (l : List Nat), l.Nodup →
      removeOccupied rack_face devices l =
        l.filter (fun u => !(devices.any
          (fun d => facesMatch rack_face d && (deviceSpan d).contains u)))
  | [], l, _ => by simp [removeOccupied]
  | d :: devices, l, h => by
    cases hf : facesMatch rack_face d with
    | true =>
      have h1 : ((deviceSpan d).foldl List.erase l).Nodup := by
        rw [foldl_erase_eq_filter _ l h]
        exact h.filter _
      have ih := removeOccupied_eq_filter rack_face devices _ h1
      simp only [removeOccupied, List.foldl_cons, hf, if_true] at ih ⊢
      rw [ih, foldl_erase_eq_filter _ l h, List.filter_filter]
      apply List.filter_congr
      intro u _
      simp [List.any_cons, hf, Bool.and_comm]
    | false =>
      have ih := removeOccupied_eq_filter rack_face devices l h
      simp only [removeOccupied, List.foldl_cons] at ih ⊢
      simp only [hf]
      simp only [Bool.false_eq_true, if_false]
      rw [ih]
      apply List.filter_congr
      intro u _
      simp [List.any_cons, hf]

theorem availFilter_eq (r : Rack) (rack_face : Option RackFace)
    (exclude : List Nat) :
    removeOccupied rack_face
        (r.devices.filter (fun d => positionGE1 d && !(exclude.contains d.pk)))
        (List.range' 1 r.u_height) =
      specFreeUnits r rack_face exclude := by
  rw [removeOccupied_eq_filter rack_face _ _ (List.nodup_range' 1 r.u_height)]
  unfold specFreeUnits
  apply List.filter_congr
  intro u _
  simp only [List.any_filter]
  congr 1
  congr 1
  funext d
  simp [considered, Bool.and_assoc]

theorem get_available_units_eq_spec (r : Rack) (u_height : Nat)
    (rack_face : Option RackFace) (exclude : List Nat) :
    r.get_available_units u_height rack_face exclude =
      specAvailableUnits r u_height rack_face exclude := by
  simp only [Rack.get_available_units, specAvailableUnits]
  rw [availFilter_eq r rack_face exclude]

theorem mem_specFreeUnits (r : Rack) (rack_face : Option RackFace)
    (exclude : List Nat) (u : Nat) :
    u ∈ specFreeUnits r rack_face exclude ↔
      (1 ≤ u ∧ u ≤ r.u_height) ∧ ¬occupiedUnit r rack_face exclude u := by
  unfold specFreeUnits occupiedUnit
  rw [List.mem_filter, List.mem_range'_1]
  constructor
  · rintro ⟨⟨h1, h2⟩, h3⟩
    refine ⟨⟨h1, by omega⟩, ?_⟩
    rintro ⟨d, hd, hc, hs⟩
    simp at h3
    exact absurd hs (h3 d hd hc)
  · rintro ⟨⟨h1, h2⟩, h3⟩
    refine ⟨⟨h1, by omega⟩, ?_⟩
    simp
    intro d hd hc hs
    exact h3 ⟨d, hd, hc, hs⟩

theorem mem_get_available_units (r : Rack) (u_height : Nat)
    (rack_face : Option RackFace) (exclude : List Nat) (u : Nat)
    (h : 1 ≤ u_height) :
    u ∈ r.get_available_units u_height rack_face exclude ↔
      (1 ≤ u ∧ ∀ v ∈ List.range' u u_height,
        v ≤ r.u_height ∧ ¬occupiedUnit r rack_face exclude v) := by
  rw [get_available_units_eq_spec]
  unfold specAvailableUnits
  rw [List.mem_reverse, List.mem_filter, List.all_eq_true]
  constructor
  · rintro ⟨hu, hall⟩
    have h0 := (mem_specFreeUnits r rack_face exclude u).mp hu
    refine ⟨h0.1.1, ?_⟩
    intro v hv
    have hv2 := hall v hv
    rw [List.elem_iff] at hv2
    have h3 := (mem_specFreeUnits r rack_face exclude v).mp hv2
    exact ⟨h3.1.2, h3.2⟩
  · rintro ⟨h1, hall⟩
    have hu_mem : u ∈ List.range' u u_height := by
      rw [List.mem_range'_1]
      omega
    have hu_free : u ∈ specFreeUnits r rack_face exclude := by
      rw [mem_specFreeUnits]
      exact ⟨⟨h1, (hall u hu_mem).1⟩, (hall u hu_mem).2⟩
    refine ⟨hu_free, ?_⟩
    intro v hv
    rw [List.elem_iff, mem_specFreeUnits]
    have h4 := hall v hv
    rw [List.mem_range'_1] at hv
    exact ⟨⟨by omega, h4.1⟩, h4.2⟩

theorem get_available_units_sorted (r : Rack) (u_height : Nat)
    (rack_face : Option RackFace) (exclude : List Nat) :
    List.Pairwise (fun a b => b < a)
      (r.get_available_units u_height rack_face exclude) := by
  rw [get_available_units_eq_spec]
  unfold specAvailableUnits specFreeUnits
  rw [List.pairwise_reverse]
  exact ((List.pairwise_lt_range' 1 r.u_height).filter _).filter _

theorem elevSet_eq_some (elev : List RackUnit) (u : Nat) (d : Device)
    (h : u ∈ elev.map RackUnit.id) :
    elevSet elev u d = some (elev.map
      (fun rec => if rec.id == u then { rec with device := some d } else rec)) := by
  unfold elevSet
  rw [if_pos]
  rw [List.any_eq_true]
  rw [List.mem_map] at h
  obtain ⟨rec, hrec, hid⟩ := h
  exact ⟨rec, hrec, by simp [hid]⟩

theorem ids_of_setMap (elev : List RackUnit) (u : Nat) (d : Device) :
    (elev.map (fun rec =>
      if rec.id == u then { rec with device := some d } else rec)).map
        RackUnit.id = elev.map RackUnit.id := by
  rw [List.map_map]
  apply List.map_congr_left
  intro rec _
  by_cases h1 : rec.id == u <;> simp [h1, Function.comp]

theorem foldlM_elevSet (d : Device) :
    ∀ (us : List Nat) (elev : List RackUnit),
      (∀ u ∈ us, u ∈ elev.map RackUnit.id) →
      us.foldlM (fun e u => elevSet e u d) elev =
        some (elev.map (fun rec =>
          if us.contains rec.id then { rec with device := some d } else rec))
  | [], elev, _ => by simp
  | u :: us, elev, h => by
    rw [List.foldlM_cons, elevSet_eq_some elev u d (h u (List.mem_cons_self u us))]
    have hids : ∀ v ∈ us,
        v ∈ (elev.map (fun rec =>
          if rec.id == u then { rec with device := some d } else rec)).map
            RackUnit.id := by
      intro v hv
      rw [ids_of_setMap]
      exact h v (List.mem_cons_of_mem u hv)
    have ih := foldlM_elevSet d us _ hids
    simp only [Option.bind_eq_bind, Option.some_bind] at *
    rw [ih, List.map_map]
    refine congrArg some ?_
    apply List.map_congr_left
    intro rec _
    by_cases h1 : rec.id = u <;> by_cases h2 : us.contains rec.id <;>
      simp [Function.comp, h1, h2, List.contains_cons]



theorem foldlM_placeDevice_false :
    ∀ (ds : List Device) (elev : List RackUnit),
      (∀ d ∈ ds, ∀ u ∈ deviceSpan d, u ∈ elev.map RackUnit.id) →
      ds.foldlM (placeDevice false) elev =
        some (elev.map (fun rec =>
          { rec with device := occupantAfter ds rec.id rec.device }))
  | [], elev, _ => by
    simp only [List.foldlM_nil, occupantAfter, List.foldl_nil]
    exact congrArg some (List.map_id elev).symm
  | d :: ds, elev, h => by
    rw [List.foldlM_cons]
    cases hp : d.position with
    | none =>
      have ih := foldlM_placeDevice_false ds elev
        (fun e he u hu => h e (List.mem_cons_of_mem d he) u hu)
      simp only [placeDevice, hp, Option.bind_eq_bind, Option.some_bind]
      rw [ih]
      refine congrArg some ?_
      apply List.map_congr_left
      intro rec _
      have hspan : deviceSpan d = [] := by simp [deviceSpan, hp]
      simp [occupantAfter, hspan]
    | some p =>
      have hstep : placeDevice false elev d =
          some (elev.map (fun rec =>
            if (deviceSpan d).contains rec.id then
              { rec with device := some d } else rec)) := by
        simp only [placeDevice, hp]
        have := foldlM_elevSet d (deviceSpan d) elev
          (h d (List.mem_cons_self d ds))
        simp only [deviceSpan, hp] at this ⊢
        exact this
      rw [hstep]
      simp only [Option.bind_eq_bind, Option.some_bind]
      have hids : ∀ e ∈ ds, ∀ u ∈ deviceSpan e,
          u ∈ (elev.map (fun rec =>
            if (deviceSpan d).contains rec.id then
              { rec with device := some d } else rec)).map RackUnit.id := by
        intro e he u hu
        have : (elev.map (fun rec =>
            if (deviceSpan d).contains rec.id then
              { rec with device := some d } else rec)).map RackUnit.id =
            elev.map RackUnit.id := by
          rw [List.map_map]
          apply List.map_congr_left
          intro rec _
          by_cases h1 : rec.id ∈ deviceSpan d <;>
            simp [Function.comp, h1]
        rw [this]
        exact h e (List.mem_cons_of_mem d he) u hu
      rw [foldlM_placeDevice_false ds _ hids, List.map_map]
      refine congrArg some ?_
      apply List.map_congr_left
      intro rec _
      have : occupantAfter (d :: ds) rec.id rec.device =
          occupantAfter ds rec.id
            (if (deviceSpan d).contains rec.id then some d else rec.device) := by
        simp [occupantAfter]
      rw [this]
      by_cases h1 : rec.id ∈ deviceSpan d <;>
        simp [Function.comp, h1]



theorem foldl_elevPop_eq_filter :
    ∀ (us : List Nat) (elev : List RackUnit),
      us.foldl elevPop elev = elev.filter (fun rec => !(us.contains rec.id))
  | [], elev => by simp
  | u :: us, elev => by
    simp only [List.foldl_cons]
    rw [foldl_elevPop_eq_filter us (elevPop elev u)]
    unfold elevPop
    rw [List.filter_filter]
    apply List.filter_congr
    intro rec _
    by_cases h1 : rec.id = u <;> by_cases h2 : us.contains rec.id <;>
      simp [h1, h2, List.contains_cons]

theorem foldlM_placeDevice_true_isSome :
    ∀ (ds : List Device) (elev : List RackUnit),
      (∀ d ∈ ds, ∀ u ∈ deviceSpan d, u ∈ elev.map RackUnit.id) →
      ds.Pairwise (fun d e => ∀ u, u ∈ deviceSpan d → u ∉ deviceSpan e) →
      (∀ d ∈ ds, 1 ≤ d.device_type.u_height) →
      (ds.foldlM (placeDevice true) elev).isSome
  | [], elev, _, _, _ => by simp
  | d :: ds, elev, h1, h2, h3 => by
    rw [List.foldlM_cons]
    cases hp : d.position with
    | none =>
      simp only [placeDevice, hp, Option.bind_eq_bind, Option.some_bind]
      exact foldlM_placeDevice_true_isSome ds elev
        (fun e he u hu => h1 e (List.mem_cons_of_mem d he) u hu)
        (List.Pairwise.of_cons h2)
        (fun e he => h3 e (List.mem_cons_of_mem d he))
    | some p =>
      have hmem : p ∈ deviceSpan d := by
        have := h3 d (List.mem_cons_self d ds)
        simp only [deviceSpan, hp, List.mem_range'_1]
        omega
      have hset := elevSet_eq_some elev p d (h1 d (List.mem_cons_self d ds) p hmem)
      simp only [placeDevice, hp, hset, if_true, Option.map_some',
        Option.bind_eq_bind, Option.some_bind]
      set elev1 := elev.map (fun rec =>
        if rec.id == p then { rec with device := some d } else rec) with helev1
      have hids1 : elev1.map RackUnit.id = elev.map RackUnit.id :=
        ids_of_setMap elev p d
      rw [foldl_elevPop_eq_filter]
      apply foldlM_placeDevice_true_isSome
      · intro e he u hu
        rw [List.mem_map]
        have hu_elev : u ∈ elev1.map RackUnit.id := by
          rw [hids1]
          exact h1 e (List.mem_cons_of_mem d he) u hu
        rw [List.mem_map] at hu_elev
        obtain ⟨rec, hrec, hid⟩ := hu_elev
        refine ⟨rec, ?_, hid⟩
        rw [List.mem_filter]
        refine ⟨hrec, ?_⟩
        have hnotin : rec.id ∉ List.range' (p + 1) (d.device_type.u_height - 1) := by
          intro hin
          have hspan : rec.id ∈ deviceSpan d := by
            rw [List.mem_range'_1] at hin
            simp only [deviceSpan, hp, List.mem_range'_1]
            omega
          have := List.rel_of_pairwise_cons h2 he
          exact (this rec.id hspan) (hid ▸ hu)
        simp [hnotin]
      · exact List.Pairwise.of_cons h2
      · exact fun e he => h3 e (List.mem_cons_of_mem d he)



theorem rack_units_length (r : Rack) : r.units.length = r.u_height := by
  unfold Rack.units
  split <;> simp

theorem mem_rack_units (r : Rack) (u : Nat) :
    u ∈ r.units ↔ 1 ≤ u ∧ u ≤ r.u_height := by
  unfold Rack.units
  split
  · rw [List.mem_range'_1]
    omega
  · rw [List.mem_reverse, List.mem_range'_1]
    omega

theorem elevInit_ids (r : Rack) (face : RackFace) :
    ((r.units.map (fun u => RackUnit.mk u ("U" ++ toString u) face none)).map
      RackUnit.id) = r.units := by
  rw [List.map_map]
  exact List.map_id r.units

theorem get_rack_units_false_eq (r : Rack) (face : RackFace)
    (exclude : Option Nat)
    (hb : ∀ d ∈ rackUnitDevices r face exclude, ∀ u ∈ deviceSpan d,
      1 ≤ u ∧ u ≤ r.u_height) :
    r.get_rack_units face exclude false =
      some ((r.units.map
          (fun u => RackUnit.mk u ("U" ++ toString u) face none)).map
        (fun rec => { rec with device := occupantAfter (rackUnitDevices r face exclude) rec.id none })) := by
  have hids : ∀ d ∈ rackUnitDevices r face exclude, ∀ u ∈ deviceSpan d,
      u ∈ (r.units.map
        (fun u => RackUnit.mk u ("U" ++ toString u) face none)).map RackUnit.id := by
    intro d hd u hu
    rw [elevInit_ids, mem_rack_units]
    exact hb d hd u hu
  have h0 := foldlM_placeDevice_false (rackUnitDevices r face exclude)
    (r.units.map (fun u => RackUnit.mk u ("U" ++ toString u) face none)) hids
  show (rackUnitDevices r face exclude).foldlM (placeDevice false)
      (r.units.map (fun u => RackUnit.mk u ("U" ++ toString u) face none)) = _
  rw [h0]
  refine congrArg some ?_
  apply List.map_congr_left
  intro rec hrec
  rw [List.mem_map] at hrec
  obtain ⟨u, _, hu⟩ := hrec
  have hdev : rec.device = none := by
    rw [← hu]
  rw [hdev]

theorem get_rack_units_true_isSome (r : Rack) (face : RackFace)
    (exclude : Option Nat)
    (hb : ∀ d ∈ rackUnitDevices r face exclude, ∀ u ∈ deviceSpan d,
      1 ≤ u ∧ u ≤ r.u_height)
    (hdisj : (rackUnitDevices r face exclude).Pairwise
      (fun d e => ∀ u, u ∈ deviceSpan d → u ∉ deviceSpan e))
    (hpos : ∀ d ∈ rackUnitDevices r face exclude, 1 ≤ d.device_type.u_height) :
    (r.get_rack_units face exclude true).isSome := by
  unfold Rack.get_rack_units
  apply foldlM_placeDevice_true_isSome
  · intro d hd u hu
    rw [elevInit_ids, mem_rack_units]
    exact hb d hd u hu
  · exact hdisj
  · exact hpos

theorem length_available_one (r : Rack) (rack_face : Option RackFace)
    (exclude : List Nat) :
    (r.get_available_units 1 rack_face exclude).length =
      (specFreeUnits r rack_face exclude).length := by
  rw [get_available_units_eq_spec]
  unfold specAvailableUnits
  rw [List.length_reverse]
  have h : (specFreeUnits r rack_face exclude).filter
      (fun u => (List.range' u 1).all
        (fun v => (specFreeUnits r rack_face exclude).contains v)) =
      specFreeUnits r rack_face exclude := by
    rw [List.filter_eq_self]
    intro u hu
    simp only [List.range', List.all_cons, List.all_nil, Bool.and_true]
    exact List.elem_iff.mpr hu
  rw [h]

instance {e a : Type} [DecidableEq e] [DecidableEq a] :
    DecidableEq (Except e a) := fun x y =>
  match x, y with
  | Except.ok u, Except.ok v =>
    match decEq u v with
    | isTrue h => isTrue (congrArg Except.ok h)
    | isFalse h => isFalse (fun hx => h (Except.ok.inj hx))
  | Except.error u, Except.error v =>
    match decEq u v with
    | isTrue h => isTrue (congrArg Except.error h)
    | isFalse h => isFalse (fun hx => h (Except.error.inj hx))
  | Except.ok _, Except.error _ => isFalse (fun hx => Except.noConfusion hx)
  | Except.error _, Except.ok _ => isFalse (fun hx => Except.noConfusion hx)

theorem get_rack_units_false_spec (r : Rack) (face : RackFace)
    (exclude : Option Nat)
    (hb : ∀ d ∈ rackUnitDevices r face exclude, ∀ u ∈ deviceSpan d,
      1 ≤ u ∧ u ≤ r.u_height) :
    ∃ l, r.get_rack_units face exclude false = some l ∧
      l.length = r.u_height ∧ l.map RackUnit.id = r.units ∧
      ∀ rec ∈ l, rec.device =
        occupantAfter (rackUnitDevices r face exclude) rec.id none := by
  refine ⟨_, get_rack_units_false_eq r face exclude hb, ?_, ?_, ?_⟩
  · rw [List.length_map, List.length_map, rack_units_length]
  · rw [List.map_map]
    have h2 : ∀ rec ∈ r.units.map
        (fun u => RackUnit.mk u ("U" ++ toString u) face none),
        (RackUnit.id ∘ (fun rec => { rec with device := occupantAfter (rackUnitDevices r face exclude) rec.id none })) rec = RackUnit.id rec :=
      fun rec _ => rfl
    rw [List.map_congr_left h2]
    exact elevInit_ids r face
  · intro rec hrec
    rw [List.mem_map] at hrec
    obtain ⟨rec0, _, hr⟩ := hrec
    rw [← hr]

theorem checkInstances_ok_iff (nh : Nat) (full : Bool) :
    ∀ l : List PlacedDevice, (checkInstances nh full l = Except.ok () ↔
      ∀ d ∈ l, d.position.getD 0 ∈ d.rack.get_available_units nh
        (if full then none else d.face) [d.pk])
  | [] => by simp [checkInstances]
  | d :: rest => by
    unfold checkInstances
    by_cases h : d.position.getD 0 ∈ d.rack.get_available_units nh
        (if full then none else d.face) [d.pk]
    · simp [h, checkInstances_ok_iff nh full rest]
    · simp [h]

/-!
Claim theorems.
-/

/-- C1: for every rack state — in particular every state with no
overlapping placements — and every `requiredHeight ≥ 1`,
`get_available_units(requiredHeight, face, exclude)` returns exactly the
set of starting units `u` in `[1, u_height]` such that every unit of
`[u, u + requiredHeight - 1]` lies within the rack and is unoccupied for
the queried face after removing the excluded devices (full-depth devices
occupy both faces; `face = None` counts occupancy on either face), and
the result is listed in (strictly) descending order of `u`. -/
theorem claim_C1 (r : Rack) (u_height : Nat) (rack_face : Option RackFace)
    (exclude : List Nat) (u : Nat) (hreq : 1 ≤ u_height) :
    (u ∈ r.get_available_units u_height rack_face exclude ↔
      1 ≤ u ∧ ∀ v ∈ List.range' u u_height,
        v ≤ r.u_height ∧ ¬occupiedUnit r rack_face exclude v) ∧
    List.Pairwise (fun a b => b < a)
      (r.get_available_units u_height rack_face exclude) :=
  ⟨mem_get_available_units r u_height rack_face exclude u hreq,
   get_available_units_sorted r u_height rack_face exclude⟩

/-- Witness for C1: a 2U rack with a full-depth 1U device at unit 1;
unit 2 is the only available start for a 1U query. -/
theorem claim_C1_witness :
    1 ≤ 1 ∧
    ((2 ∈ (Rack.mk 2 false
        [⟨1, ⟨1, true, none⟩, some 1, some RackFace.front⟩]).get_available_units
          1 none [] ↔
      1 ≤ 2 ∧ ∀ v ∈ List.range' 2 1,
        v ≤ (Rack.mk 2 false
          [⟨1, ⟨1, true, none⟩, some 1, some RackFace.front⟩]).u_height ∧
          ¬occupiedUnit (Rack.mk 2 false
            [⟨1, ⟨1, true, none⟩, some 1, some RackFace.front⟩]) none [] v) ∧
    List.Pairwise (fun a b => b < a)
      ((Rack.mk 2 false
        [⟨1, ⟨1, true, none⟩, some 1, some RackFace.front⟩]).get_available_units
          1 none [])) :=
  ⟨by decide,
   claim_C1 (Rack.mk 2 false
     [⟨1, ⟨1, true, none⟩, some 1, some RackFace.front⟩]) 1 none [] 2 (by decide)⟩

/-- An 11U rack holding a 1U device at position 10 (top unit 10) and a
5U device at position 9 (top unit 13): `order_by('-position').first()`
sees only the former. -/
def rackShortCheck : Rack :=
  ⟨11, false, [⟨1, ⟨1, true, none⟩, some 10, some RackFace.front⟩,
    ⟨2, ⟨5, true, none⟩, some 9, some RackFace.front⟩]⟩

/-- C2: the claim (and the code's own comment and error message) require
the resize validation to fail whenever any installed device's highest
occupied unit exceeds the new height, but `Rack.clean` examines only the
single device with the greatest position. At `u_height = 11` with the
devices of `rackShortCheck` it answers OK although the 5U device at
position 9 tops out at unit 13. -/
theorem claim_C2_bug :
    Rack.clean rackShortCheck = Except.ok () ∧
    ∃ d ∈ rackShortCheck.devices,
      (rackShortCheck.u_height : ℤ) <
        (d.position.getD 0 : ℤ) + (d.device_type.u_height : ℤ) - 1 := by
  decide

/-- A 2U rack in which a 2U device at unit 1 overlaps a 1U device at
unit 2 (both front). -/
def rackOverlap : Rack :=
  ⟨2, false, [⟨1, ⟨2, true, none⟩, some 1, some RackFace.front⟩,
    ⟨2, ⟨1, true, none⟩, some 2, some RackFace.front⟩]⟩

/-- A 1U rack holding a 2U device whose span leaves the rack. -/
def rackOutOfBounds : Rack :=
  ⟨1, false, [⟨1, ⟨2, true, none⟩, some 1, some RackFace.front⟩]⟩

/-- Counterexample to C3 as stated: elevation rendering can raise.
In collapsed mode, the first device pops unit 2 and the second device's
write to `elevation[2]` raises `KeyError` (`none`); in non-collapsed
mode a device reaching past the rack top raises `KeyError` as well. -/
theorem claim_C3_counterexample :
    rackOverlap.get_rack_units RackFace.front none true = none ∧
    rackOutOfBounds.get_rack_units RackFace.front none false = none := by
  decide

/-- C3 (amended): for every occupancy state whose matching devices lie
within the rack bounds, non-collapsed rendering never raises and
resolves units written by several devices deterministically to the last
writer in iteration order (`occupantAfter`); collapsed rendering never
raises provided additionally the matching devices' spans are pairwise
disjoint and each matching device is at least 1U. (As stated the claim
is false: collapsed rendering raises `KeyError` on overlap, and either
mode raises on out-of-bounds spans — see the counterexample.) -/
theorem claim_C3 (r : Rack) (face : RackFace) (exclude : Option Nat)
    (hb : ∀ d ∈ rackUnitDevices r face exclude, ∀ u ∈ deviceSpan d,
      1 ≤ u ∧ u ≤ r.u_height) :
    (∃ l, r.get_rack_units face exclude false = some l ∧
      ∀ rec ∈ l, rec.device =
        occupantAfter (rackUnitDevices r face exclude) rec.id none) ∧
    ((rackUnitDevices r face exclude).Pairwise
        (fun d e => ∀ u, u ∈ deviceSpan d → u ∉ deviceSpan e) →
      (∀ d ∈ rackUnitDevices r face exclude, 1 ≤ d.device_type.u_height) →
      (r.get_rack_units face exclude true).isSome) := by
  constructor
  · obtain ⟨l, h1, _, _, h4⟩ := get_rack_units_false_spec r face exclude hb
    exact ⟨l, h1, h4⟩
  · intro hdisj hpos
    exact get_rack_units_true_isSome r face exclude hb hdisj hpos

/-- A 3U rack with a 2U device at units 1-2 and a 1U device at unit 3
(no overlap, all in bounds). -/
def rackTwoStacked : Rack :=
  ⟨3, false, [⟨1, ⟨2, true, none⟩, some 1, some RackFace.front⟩,
    ⟨2, ⟨1, true, none⟩, some 3, some RackFace.front⟩]⟩

/-- Witness for C3 at `rackTwoStacked`. -/
theorem claim_C3_witness :
    (∀ d ∈ rackUnitDevices rackTwoStacked RackFace.front none,
      ∀ u ∈ deviceSpan d, 1 ≤ u ∧ u ≤ rackTwoStacked.u_height) ∧
    ((∃ l, rackTwoStacked.get_rack_units RackFace.front none false = some l ∧
      ∀ rec ∈ l, rec.device =
        occupantAfter (rackUnitDevices rackTwoStacked RackFace.front none)
          rec.id none) ∧
    ((rackUnitDevices rackTwoStacked RackFace.front none).Pairwise
        (fun d e => ∀ u, u ∈ deviceSpan d → u ∉ deviceSpan e) →
      (∀ d ∈ rackUnitDevices rackTwoStacked RackFace.front none,
        1 ≤ d.device_type.u_height) →
      (rackTwoStacked.get_rack_units RackFace.front none true).isSome)) :=
  ⟨by decide, claim_C3 rackTwoStacked RackFace.front none (by decide)⟩

/-- A 2U rack whose only device is a rear-face, non-full-depth 1U device
at unit 1: with `rack_face = None` it counts as occupancy, on the front
face's map it does not. -/
def rackRearOnly : Rack :=
  ⟨2, false, [⟨1, ⟨1, false, none⟩, some 1, some RackFace.rear⟩]⟩

/-- A 50U rack with a 29U device: 21 free units, where Python's
`int(float(29)/50*100)` is 57 while `floor(29*100/50)` is 58. -/
def rackFloat : Rack :=
  ⟨50, false, [⟨1, ⟨29, true, none⟩, some 1, some RackFace.front⟩]⟩

/-- Counterexample to C4 as stated, in both respects: (1) the code
computes the free units with `rack_face = None` — a rear-only device
counts — so `rackRearOnly` yields 50 while the claimed front-face
formula yields 0; (2) the code computes the percentage in binary64
floats, so `rackFloat` yields 57 while the claimed exact floor formula
yields 58 (even with the code's own free-unit count). -/
theorem claim_C4_counterexample :
    rackRearOnly.get_utilization = 50 ∧
    ((rackRearOnly.u_height : ℤ) -
        ((rackRearOnly.get_available_units 1 (some RackFace.front) []).length : ℤ))
      * 100 / (rackRearOnly.u_height : ℤ) = 0 ∧
    rackFloat.get_utilization = 57 ∧
    ((rackFloat.u_height : ℤ) -
        ((rackFloat.get_available_units 1 none []).length : ℤ))
      * 100 / (rackFloat.u_height : ℤ) = 58 := by
  decide

/-- C4 (amended): `get_utilization` returns Python's
`int(float(u_height - F) / u_height * 100)` — binary64 arithmetic, which
equals `floor((u_height - F) / u_height * 100)` except at four
height/free-count pairs where it is one less — where `F` is the number
of units free with `face = None`, i.e. counting occupancy by devices on
either face (not the front face's map). -/
theorem claim_C4 (r : Rack) :
    r.get_utilization =
      pyUtilization r.u_height (specFreeUnits r none []).length := by
  unfold Rack.get_utilization
  rw [length_available_one]

/-- C6 (amended): sorting the ten-name input by the `order_interfaces`
key reproduces exactly the claimed order, but the three-name input
`vlan10, vlan1, vlan2` sorts numerically by the trailing integer
(`_id3` requires no slash path), giving `vlan1, vlan2, vlan10` — not the
claimed lexical order. -/
theorem claim_C6 :
    order_interfaces ["et-0/0/0", "et-0/0/1", "et-0/1/0", "xe-0/1/1:0",
        "xe-0/1/1:1", "et-0/1/2", "et-0/1/10", "et-1/0/0", "vlan1", "vlan10"] =
      ["et-0/0/0", "et-0/0/1", "et-0/1/0", "xe-0/1/1:0", "xe-0/1/1:1",
        "et-0/1/2", "et-0/1/10", "et-1/0/0", "vlan1", "vlan10"] ∧
    order_interfaces ["vlan10", "vlan1", "vlan2"] =
      ["vlan1", "vlan2", "vlan10"] := by
  decide

/-- Counterexample to C6 as stated: the names with no slash path are
ordered by their trailing integer (`_id3`), not lexically. -/
theorem claim_C6_counterexample :
    order_interfaces ["vlan10", "vlan1", "vlan2"] ≠
      ["vlan1", "vlan10", "vlan2"] ∧
    order_interfaces ["vlan10", "vlan1", "vlan2"] =
      ["vlan1", "vlan2", "vlan10"] := by
  decide

/-- C5: for every rack (front or rear face, optional exclusion), the
non-collapsed elevation succeeds with exactly `u_height` records — one
per unit, in `Rack.units` order — and each record carries the device
covering that unit (a multi-unit device is thus repeated at every unit
of its span; `occupantAfter` resolves overlap writes to iteration
order). Hypothesis: every rendered device lies within the rack bounds,
the invariant every validated state satisfies (out-of-bounds rows make
rendering raise instead, see C3). -/
theorem claim_C5 (r : Rack) (face : RackFace) (exclude : Option Nat)
    (hb : ∀ d ∈ rackUnitDevices r face exclude, ∀ u ∈ deviceSpan d,
      1 ≤ u ∧ u ≤ r.u_height) :
    ∃ l, r.get_rack_units face exclude false = some l ∧
      l.length = r.u_height ∧ l.map RackUnit.id = r.units ∧
      ∀ rec ∈ l, rec.device =
        occupantAfter (rackUnitDevices r face exclude) rec.id none :=
  get_rack_units_false_spec r face exclude hb

/-- A 2U rack fully occupied by one 2U device. -/
def rackOneTall : Rack :=
  ⟨2, false, [⟨1, ⟨2, true, none⟩, some 1, some RackFace.front⟩]⟩

/-- Witness for C5 at `rackOneTall`. -/
theorem claim_C5_witness :
    (∀ d ∈ rackUnitDevices rackOneTall RackFace.front none,
      ∀ u ∈ deviceSpan d, 1 ≤ u ∧ u ≤ rackOneTall.u_height) ∧
    (∃ l, rackOneTall.get_rack_units RackFace.front none false = some l ∧
      l.length = rackOneTall.u_height ∧ l.map RackUnit.id = rackOneTall.units ∧
      ∀ rec ∈ l, rec.device =
        occupantAfter (rackUnitDevices rackOneTall RackFace.front none)
          rec.id none) :=
  ⟨by decide, claim_C5 rackOneTall RackFace.front none (by decide)⟩

/-- A persisted device with `position = 0` (a 0U device), no face, a
non-child full-depth 1U type, in a fully occupied 1U rack. -/
def zeroPosDevice : PendingDevice :=
  ⟨some 1, ⟨1, true, none⟩,
    ⟨1, false, [⟨2, ⟨1, true, none⟩, some 1, some RackFace.front⟩]⟩,
    some 0, none⟩

/-- Counterexample to C7 as stated: `zeroPosDevice` has its position set
(`some 0`, not null) without a face, and `0` is not among the available
units, yet `Device.clean` succeeds — Python's truthiness test
`if self.position` treats `0` like `None`, so a 0U device bypasses both
the face requirement and the rack-space check. -/
theorem claim_C7_counterexample :
    Device.clean zeroPosDevice = Except.ok () ∧
    zeroPosDevice.position ≠ none ∧
    zeroPosDevice.face = none ∧
    zeroPosDevice.rack.get_available_units
      zeroPosDevice.device_type.u_height none [1] = [] := by
  decide

/-- C7 (amended): placement validation fails on the `face` field when a
truthy (nonzero, non-null) position is set without a face; fails when
the device type's role is child and a face is set or the position is
truthy; and otherwise succeeds if and only if the position is null or
zero, or the position is a member of
`get_available_units(heightUnits, effectiveFace, exclude=[own pk])` of
the target rack, where `effectiveFace` is `None` for full-depth types
and the device's face otherwise (a new device, `pk = None`, excludes
nothing). The only amendment to the claim: "position is set" must be
read as Python truthiness, so `position = 0` bypasses the checks. -/
theorem claim_C7 (d : PendingDevice) :
    (positionTruthy d.position = true → d.face = none →
      Device.clean d = Except.error
        ("face", "Must specify rack face when defining rack position.")) ∧
    (d.device_type.is_child_device = true →
      d.face ≠ none ∨ positionTruthy d.position = true →
      ∃ e, Device.clean d = Except.error e) ∧
    (Device.clean d = Except.ok () ↔
      ¬(positionTruthy d.position = true ∧ d.face = none) ∧
      ¬(d.device_type.is_child_device = true ∧
        (d.face ≠ none ∨ positionTruthy d.position = true)) ∧
      (positionTruthy d.position = false ∨
        (d.rack.get_available_units d.device_type.u_height
          (if d.device_type.is_full_depth then none else d.face)
          (match d.pk with
            | some k => [k]
            | none => [])).contains (d.position.getD 0) = true)) := by
  unfold Device.clean
  by_cases hA : positionTruthy d.position <;>
    by_cases hB : d.face = none <;>
      by_cases hC : d.device_type.is_child_device <;>
        by_cases hK : (d.rack.get_available_units d.device_type.u_height
          (if d.device_type.is_full_depth then none else d.face)
          (match d.pk with
            | some k => [k]
            | none => [])).contains (d.position.getD 0) = true <;>
          simp [hA, hB, hC, hK]

/-- A persisted non-child device at unit 1 of an empty 2U rack. -/
def deviceW : PendingDevice :=
  ⟨some 5, ⟨1, true, none⟩, ⟨2, false, []⟩, some 1, some RackFace.front⟩

/-- Witness for C7 at `deviceW`. -/
theorem claim_C7_witness :
    (positionTruthy deviceW.position = true → deviceW.face = none →
      Device.clean deviceW = Except.error
        ("face", "Must specify rack face when defining rack position.")) ∧
    (deviceW.device_type.is_child_device = true →
      deviceW.face ≠ none ∨ positionTruthy deviceW.position = true →
      ∃ e, Device.clean deviceW = Except.error e) ∧
    (Device.clean deviceW = Except.ok () ↔
      ¬(positionTruthy deviceW.position = true ∧ deviceW.face = none) ∧
      ¬(deviceW.device_type.is_child_device = true ∧
        (deviceW.face ≠ none ∨ positionTruthy deviceW.position = true)) ∧
      (positionTruthy deviceW.position = false ∨
        (deviceW.rack.get_available_units deviceW.device_type.u_height
          (if deviceW.device_type.is_full_depth then none else deviceW.face)
          (match deviceW.pk with
            | some k => [k]
            | none => [])).contains (deviceW.position.getD 0) = true)) :=
  claim_C7 deviceW

/-- C8: when a persisted device type's height is raised
(`u_height > _original_u_height`) and the template/flag checks pass,
`DeviceType.clean` succeeds if and only if every existing instance of
the type with a non-null position keeps its position inside
`get_available_units(newHeight, effectiveFace, exclude=[that device])`
computed against that instance's own rack, with `effectiveFace = None`
for full-depth types and the instance's face otherwise. -/
theorem claim_C8 (t : DeviceTypeRec) (instances : List PlacedDevice)
    (h1 : t.pk_is_set = true) (h2 : t.original_u_height < t.u_height)
    (h3 : DeviceType.clean_rest t = Except.ok ()) :
    DeviceType.clean t instances = Except.ok () ↔
      ∀ d ∈ instances, ∀ p, d.position = some p →
        p ∈ d.rack.get_available_units t.u_height
          (if t.is_full_depth then none else d.face) [d.pk] := by
  unfold DeviceType.clean
  rw [if_pos (by simp [h1, h2] : (t.pk_is_set && decide (t.original_u_height < t.u_height)) = true)]
  have hbridge : (∀ d ∈ instances.filter (fun d => d.position.isSome),
      d.position.getD 0 ∈ d.rack.get_available_units t.u_height
        (if t.is_full_depth then none else d.face) [d.pk]) ↔
      (∀ d ∈ instances, ∀ p, d.position = some p →
        p ∈ d.rack.get_available_units t.u_height
          (if t.is_full_depth then none else d.face) [d.pk]) := by
    constructor
    · intro h d hd p hp
      have hmem : d ∈ instances.filter (fun d => d.position.isSome) := by
        rw [List.mem_filter]
        exact ⟨hd, by rw [hp]; rfl⟩
      have := h d hmem
      rw [hp] at this
      exact this
    · intro h d hd
      rw [List.mem_filter] at hd
      obtain ⟨p, hp⟩ := Option.isSome_iff_exists.mp hd.2
      have := h d hd.1 p hp
      rw [hp]
      exact this
  cases hc : checkInstances t.u_height t.is_full_depth
      (instances.filter (fun d => d.position.isSome)) with
  | error e =>
    have hne : ¬(∀ d ∈ instances.filter (fun d => d.position.isSome),
        d.position.getD 0 ∈ d.rack.get_available_units t.u_height
          (if t.is_full_depth then none else d.face) [d.pk]) := by
      intro hall
      rw [← checkInstances_ok_iff t.u_height t.is_full_depth] at hall
      rw [hc] at hall
      exact Except.noConfusion hall
    constructor
    · intro hx
      exact Except.noConfusion hx
    · intro hall
      exact absurd (hbridge.mpr hall) hne
  | ok u =>
    cases u
    have hall := (checkInstances_ok_iff t.u_height t.is_full_depth _).mp hc
    constructor
    · intro _
      exact hbridge.mp hall
    · intro _
      exact h3

/-- A device type grown from 1U to 2U (persisted, full depth, all
template checks clean). -/
def dt42 : DeviceTypeRec :=
  ⟨true, 2, 1, true, none, false, false, true, 0, 0, 0, 0⟩

/-- An instance of that type at position 42 of a 42U rack (nothing above
it, but unit 43 does not exist). -/
def inst42 : PlacedDevice :=
  ⟨7, some 42, some RackFace.front,
    ⟨42, false, [⟨7, ⟨1, true, none⟩, some 42, some RackFace.front⟩]⟩⟩

/-- Witness for C8: the claimed scenario — growth from 1U to 2U with an
instance at position 42 of a 42U rack fails validation. -/
theorem claim_C8_witness :
    dt42.pk_is_set = true ∧ dt42.original_u_height < dt42.u_height ∧
    DeviceType.clean_rest dt42 = Except.ok () ∧
    ¬(DeviceType.clean dt42 [inst42] = Except.ok ()) :=
  ⟨rfl, by decide, by decide, fun hok => by
    have hall := (claim_C8 dt42 [inst42] rfl (by decide) (by decide)).mp hok
    have h42 := hall inst42 (List.mem_cons_self inst42 []) 42 rfl
    exact absurd h42 (by decide)⟩

/-- C9: `get_available_units` is total on every occupancy state,
including overlapping placements: a unit covered by several devices'
spans is removed from the free list exactly once (`List.erase`), every
further covering is silently ignored (the swallowed `ValueError`), and
the result equals the computation over the union of all occupied spans
(`specAvailableUnits`). -/
theorem claim_C9 (r : Rack) (u_height : Nat) (rack_face : Option RackFace)
    (exclude : List Nat) :
    r.get_available_units u_height rack_face exclude =
      specAvailableUnits r u_height rack_face exclude :=
  get_available_units_eq_spec r u_height rack_face exclude

/-- C10: after saving any device, every row of the resulting device
table satisfies: if it is installed in one of the saved device's bays,
its `rack` equals the saved device's `rack`; and every row other than
the saved device descends from an input row with the same primary key,
with `position`, `face` and `name` unchanged, and `rack` unchanged
unless the row is such a child. -/
theorem claim_C10 (self : DeviceRow) (devices : List DeviceRow)
    (bays : List DeviceBayRow) (c : DeviceRow)
    (hc : c ∈ Device.save self devices bays) :
    (isChildOf bays self.pk c.pk = true → c.rack = self.rack) ∧
    (c.pk ≠ self.pk → ∃ c0 ∈ devices, c0.pk = c.pk ∧
      c.position = c0.position ∧ c.face = c0.face ∧ c.name = c0.name ∧
      (isChildOf bays self.pk c.pk = false → c.rack = c0.rack)) := by
  simp only [Device.save] at hc
  rw [List.mem_map] at hc
  obtain ⟨c1, hc1, hmap⟩ := hc
  have hpk : c.pk = c1.pk := by
    rw [← hmap]
    by_cases h : isChildOf bays self.pk c1.pk <;> simp [h]
  constructor
  · intro hchild
    rw [hpk] at hchild
    rw [← hmap]
    simp [hchild]
  · intro hne
    have hc1pk : c1.pk ≠ self.pk := by
      rw [← hpk]
      exact hne
    have hc1mem : c1 ∈ devices := by
      by_cases hex : devices.any (fun d => d.pk == self.pk)
      · rw [if_pos hex, List.mem_map] at hc1
        obtain ⟨d0, hd0, hq⟩ := hc1
        by_cases h : d0.pk = self.pk
        · exfalso
          apply hc1pk
          rw [← hq]
          simp [h]
        · rw [← hq]
          simp [h]
          exact hd0
      · rw [if_neg hex, List.mem_append] at hc1
        cases hc1 with
        | inl h => exact h
        | inr h =>
          exfalso
          apply hc1pk
          rw [List.mem_singleton] at h
          rw [h]
    by_cases h : isChildOf bays self.pk c1.pk
    · refine ⟨c1, hc1mem, hpk.symm, ?_, ?_, ?_, ?_⟩ <;> rw [← hmap] <;> simp [h]
    · refine ⟨c1, hc1mem, hpk.symm, ?_, ?_, ?_, ?_⟩ <;> rw [← hmap] <;> simp [h]

/-- Witness for C10: saving parent pk 1 (rack 10) whose bay houses child
pk 2 (previously rack 3) leaves the child in rack 10 with its other
fields intact. -/
theorem claim_C10_witness :
    ((⟨2, 10, some 1, some RackFace.front, none⟩ : DeviceRow) ∈
      Device.save (⟨1, 10, none, none, none⟩ : DeviceRow)
        [⟨2, 3, some 1, some RackFace.front, none⟩]
        [⟨1, 1, "bay1", some 2⟩]) ∧
    ((isChildOf [⟨1, 1, "bay1", some 2⟩] 1 2 = true →
      (10 : Nat) = 10) ∧
    ((2 : Nat) ≠ 1 → ∃ c0 ∈ [(⟨2, 3, some 1, some RackFace.front, none⟩ : DeviceRow)],
      c0.pk = 2 ∧ (some 1 : Option Nat) = c0.position ∧
      (some RackFace.front : Option RackFace) = c0.face ∧
      (none : Option String) = c0.name ∧
      (isChildOf [⟨1, 1, "bay1", some 2⟩] 1 2 = false → (10 : Nat) = c0.rack))) :=
  ⟨by decide,
   claim_C10 ⟨1, 10, none, none, none⟩
     [⟨2, 3, some 1, some RackFace.front, none⟩]
     [⟨1, 1, "bay1", some 2⟩]
     ⟨2, 10, some 1, some RackFace.front, none⟩ (by decide)⟩

end NetBox
